import Mathlib

/-!
Package `iso` of packer-builder-vsphere: the create-VM step.

A shallow embedding of `src/iso/step_create.go`:

* `iso.CreateConfig.Prepare` (lines 32-51), the configuration validator;
* `iso.StepCreateVM.Run` (lines 59-105), the create/replace step;
* `iso.StepCreateVM.Cleanup` (lines 107-127), the rollback.

Conventions of the embedding.

* A Go `error` is the text its `Error()` method returns (`GoError`); a nil
  `error` is `none`.
* `int64` and `uint` fields are `Int` and `Nat`: the code only compares
  `DiskSize` with zero and copies the others, so no arithmetic can overflow.
* The pointer receivers and the pointer fields `Config` and `Location` are
  values: the functions are read on non-nil pointers.
* A method that mutates its receiver returns the new receiver next to its
  result.
* The element type of `Storage`, `driver.DiskConfig`, is declared in the
  package `driver`; the code of this file never looks inside an element, so
  it is the type parameter `Disk`.
-/

set_option autoImplicit false

/-- The text of a Go `error` value, as `Error()` returns it. -/
structure GoError where
  msg : String
deriving DecidableEq, Repr

/-- The call `fmt.Errorf(text)` with no verb in `text`. -/
def Errorf (text : String) : GoError := ⟨text⟩

/-- The verb `%v` applied to an `error`: the message, or `<nil>` for nil. -/
def fmtV : Option GoError → String
  | none => "<nil>"
  | some e => e.msg

namespace iso

/-- The struct `CreateConfig` (lines 12-30). -/
structure CreateConfig (Disk : Type) where
  Version : Nat
  GuestOSType : String
  Firmware : String
  DiskControllerType : String
  DiskSize : Int
  DiskThinProvisioned : Bool
  Network : String
  NetworkCard : String
  USBController : Bool
  Notes : String
  GlobalDiskType : String
  Networks : List String
  Storage : List Disk
deriving DecidableEq, Repr

/-- The error appended at line 37. -/
def errMutuallyExclusive : GoError :=
  Errorf "'disk_size' and 'storage' are mutually exclusive"

/-- The error appended at line 39. -/
def errOneRequired : GoError :=
  Errorf "either 'disk_size' or 'storage' is required"

/-- The error appended at line 47. -/
def errFirmware : GoError :=
  Errorf "'firmware' must be 'bios' or 'efi'"

/-- Lines 36-40: the disk rule, appending to `errs`. -/
def prepareDisk {Disk : Type} (c : CreateConfig Disk) (errs : List GoError) : List GoError :=
  if c.DiskSize ≠ 0 ∧ c.Storage.length ≠ 0 then
    errs ++ [errMutuallyExclusive]
  else if c.DiskSize = 0 ∧ c.Storage.length = 0 then
    errs ++ [errOneRequired]
  else
    errs

/-- Lines 42-44: the default of `GuestOSType`, written into the receiver. -/
def prepareGuestOS {Disk : Type} (c : CreateConfig Disk) : CreateConfig Disk :=
  if c.GuestOSType = "" then { c with GuestOSType := "otherGuest" } else c

/-- Lines 46-48: the firmware rule, appending to `errs`. -/
def prepareFirmware {Disk : Type} (c : CreateConfig Disk) (errs : List GoError) : List GoError :=
  if c.Firmware ≠ "" ∧ c.Firmware ≠ "bios" ∧ c.Firmware ≠ "efi" then
    errs ++ [errFirmware]
  else
    errs

/-- The method `(*CreateConfig).Prepare` (lines 32-51): the returned error
list and the receiver as the call leaves it. -/
def CreateConfig.Prepare {Disk : Type} (c : CreateConfig Disk) :
    List GoError × CreateConfig Disk :=
  let errs : List GoError := []
  let errs := prepareDisk c errs
  let c := prepareGuestOS c
  let errs := prepareFirmware c errs
  (errs, c)

/-- The disk rule is violated: both options given, or neither. -/
def diskViolated {Disk : Type} (c : CreateConfig Disk) : Bool :=
  (decide (c.DiskSize ≠ 0) && !c.Storage.isEmpty) ||
    (decide (c.DiskSize = 0) && c.Storage.isEmpty)

/-- The error of a violated disk rule: which of lines 37 and 39 applies. -/
def diskError {Disk : Type} (c : CreateConfig Disk) : GoError :=
  if c.DiskSize ≠ 0 then errMutuallyExclusive else errOneRequired

/-- The firmware rule is violated: a value other than the empty string,
`bios` and `efi`. -/
def firmwareViolated {Disk : Type} (c : CreateConfig Disk) : Bool :=
  decide (c.Firmware ≠ "") && decide (c.Firmware ≠ "bios") && decide (c.Firmware ≠ "efi")

end iso

namespace common

/-- Modelled from the spec: the struct `common.LocationConfig` ("Placement
Descriptor ... target name, parent folder, cluster, host, resource pool,
datastore") is declared in the package `common`; the fields are the ones
lines 63-86 read. -/
structure LocationConfig where
  VMName : String
  Folder : String
  Cluster : String
  Host : String
  ResourcePool : String
  Datastore : String
deriving DecidableEq, Repr

end common

namespace driver

/-- Modelled from the spec: the type `driver.VirtualMachine` ("VM Handle: an
opaque reference to a remote VM object") is declared in the package
`driver`; a value of this type is the pointer the driver hands out, nil
included. -/
structure VirtualMachine where
  ref : Nat
deriving DecidableEq, Repr

/-- Modelled from the spec: the struct `driver.CreateConfig` ("request
aggregates all specification and placement fields") is declared in the
package `driver`; the fields are the ones the literal of lines 77-97 sets. -/
structure CreateConfig (Disk : Type) where
  DiskThinProvisioned : Bool
  DiskControllerType : String
  DiskSize : Int
  Name : String
  Folder : String
  Cluster : String
  Host : String
  ResourcePool : String
  Datastore : String
  GuestOS : String
  Network : String
  NetworkCard : String
  USBController : Bool
  Version : Nat
  Firmware : String
  Annotation : String
  GlobalDiskType : String
  Networks : List String
  Storage : List Disk
deriving DecidableEq, Repr

/-- Modelled from the spec: the driver collaborator, `FindVM(name) ->
(VMHandle, error)`, `CreateVM(request) -> (VMHandle, error)` and
`VMHandle.Destroy() -> error`, is declared in the package `driver`. The
remote side is a state `W` that every call may read and change; what a call
returns is not constrained. -/
structure Driver (W Disk : Type) where
  FindVM : String → W → (VirtualMachine × Option GoError) × W
  CreateVM : CreateConfig Disk → W → (VirtualMachine × Option GoError) × W
  Destroy : VirtualMachine → W → Option GoError × W

end driver

namespace multistep

/-- The type `multistep.StepAction` of the packer library. -/
inductive StepAction where
  | ActionContinue
  | ActionHalt
deriving DecidableEq, Repr

/-- The constant `multistep.StateCancelled` of the packer library. -/
def StateCancelled : String := "cancelled"

/-- The constant `multistep.StateHalted` of the packer library. -/
def StateHalted : String := "halted"

/-- A value of type `interface{}` held by the state bag, by dynamic type:
the nil interface, a `packer.Ui`, a `*driver.Driver`, a
`*driver.VirtualMachine`, an `error`, a `bool`, or a value of another type. -/
inductive Value where
  | nil
  | ui
  | driver
  | vm (v : driver.VirtualMachine)
  | error (e : GoError)
  | bool (b : Bool)
  | other (tag : String)
deriving DecidableEq, Repr

/-- The `multistep.BasicStateBag` of the packer library, a
`map[string]interface{}`, as an association list without repeated keys. -/
abbrev StateBag := List (String × Value)

/-- The method `GetOk`: `result, ok := b.data[k]`. -/
def StateBag.GetOk (b : StateBag) (k : String) : Value × Bool :=
  match b.lookup k with
  | some v => (v, true)
  | none => (Value.nil, false)

/-- The method `Get`: the value of `GetOk`, nil for an absent key. -/
def StateBag.Get (b : StateBag) (k : String) : Value :=
  (b.GetOk k).1

/-- The method `Put`: `b.data[k] = v`. -/
def StateBag.Put (b : StateBag) (k : String) (v : Value) : StateBag :=
  (k, v) :: b.filter (fun kv => kv.1 != k)

end multistep

namespace iso

open multistep

/-- The struct `StepCreateVM` (lines 53-57). -/
structure StepCreateVM (Disk : Type) where
  Config : CreateConfig Disk
  Location : common.LocationConfig
  Force : Bool
deriving DecidableEq, Repr

/-- One observable effect of the step: a driver call, a message on the
`packer.Ui`, or a write to the state bag. -/
inductive Event (Disk : Type) where
  | FindVM (name : String)
  | Destroy (vm : driver.VirtualMachine)
  | CreateVM (req : driver.CreateConfig Disk)
  | Say (msg : String)
  | Error (msg : String)
  | Put (key : String) (v : Value)
deriving DecidableEq, Repr

/-- What the step runs against: the remote side, the state bag, and the
effects performed so far, oldest first. -/
structure Machine (W Disk : Type) where
  world : W
  bag : StateBag
  trace : List (Event Disk)

namespace Machine

variable {W Disk : Type}

/-- The call `ui.Say(msg)`. -/
def Say (m : Machine W Disk) (msg : String) : Machine W Disk :=
  { m with trace := m.trace ++ [Event.Say msg] }

/-- The call `ui.Error(msg)`. -/
def Error (m : Machine W Disk) (msg : String) : Machine W Disk :=
  { m with trace := m.trace ++ [Event.Error msg] }

/-- The call `state.Put(key, v)`. -/
def Put (m : Machine W Disk) (key : String) (v : Value) : Machine W Disk :=
  { m with bag := m.bag.Put key v, trace := m.trace ++ [Event.Put key v] }

/-- The call `d.FindVM(name)`. -/
def FindVM (m : Machine W Disk) (d : driver.Driver W Disk) (name : String) :
    (driver.VirtualMachine × Option GoError) × Machine W Disk :=
  let r := d.FindVM name m.world
  (r.1, { m with world := r.2, trace := m.trace ++ [Event.FindVM name] })

/-- The call `vm.Destroy()`. -/
def Destroy (m : Machine W Disk) (d : driver.Driver W Disk) (vm : driver.VirtualMachine) :
    Option GoError × Machine W Disk :=
  let r := d.Destroy vm m.world
  (r.1, { m with world := r.2, trace := m.trace ++ [Event.Destroy vm] })

/-- The call `d.CreateVM(req)`. -/
def CreateVM (m : Machine W Disk) (d : driver.Driver W Disk) (req : driver.CreateConfig Disk) :
    (driver.VirtualMachine × Option GoError) × Machine W Disk :=
  let r := d.CreateVM req m.world
  (r.1, { m with world := r.2, trace := m.trace ++ [Event.CreateVM req] })

end Machine

/-- The type assertion `.(packer.Ui)`; `none` is the panic. -/
def asUi : Value → Option Unit
  | Value.ui => some ()
  | _ => none

/-- The type assertion `.(*driver.Driver)`; `none` is the panic. -/
def asDriver : Value → Option Unit
  | Value.driver => some ()
  | _ => none

/-- The type assertion `.(*driver.VirtualMachine)`; `none` is the panic. -/
def asVirtualMachine : Value → Option driver.VirtualMachine
  | Value.vm v => some v
  | _ => none

/-- The struct literal of lines 77-97, the argument of `d.CreateVM`. -/
def StepCreateVM.request {Disk : Type} (s : StepCreateVM Disk) : driver.CreateConfig Disk :=
  { DiskThinProvisioned := s.Config.DiskThinProvisioned
    DiskControllerType := s.Config.DiskControllerType
    DiskSize := s.Config.DiskSize
    Name := s.Location.VMName
    Folder := s.Location.Folder
    Cluster := s.Location.Cluster
    Host := s.Location.Host
    ResourcePool := s.Location.ResourcePool
    Datastore := s.Location.Datastore
    GuestOS := s.Config.GuestOSType
    Network := s.Config.Network
    NetworkCard := s.Config.NetworkCard
    USBController := s.Config.USBController
    Version := s.Config.Version
    Firmware := s.Config.Firmware
    Annotation := s.Config.Notes
    GlobalDiskType := s.Config.GlobalDiskType
    Networks := s.Config.Networks
    Storage := s.Config.Storage }

/-- The message of line 66, `"%s already exists, you can use -force flag to
destroy it: %v"` applied to the name and the lookup error. -/
def msgExists (name : String) (err : Option GoError) : String :=
  name ++ " already exists, you can use -force flag to destroy it: " ++ fmtV err

/-- The message of line 69. -/
def msgDeleting (name : String) : String :=
  "the vm/template " ++ name ++ " already exists, but deleting it due to -force flag"

/-- The message of line 72, `"error destroying %s: %v"`. -/
def msgDestroying (name : String) (err : GoError) : String :=
  "error destroying " ++ name ++ ": " ++ fmtV (some err)

/-- The message of line 99, `"error creating vm: %v"`. -/
def msgCreating (err : GoError) : String :=
  "error creating vm: " ++ fmtV (some err)

/-- Lines 63-74 of `Run`: the lookup and the branch on its outcome. The
first component is `some a` when the branch returned `a`, and `none` when
control falls through to line 76. -/
def StepCreateVM.resolve {W Disk : Type} (s : StepCreateVM Disk) (d : driver.Driver W Disk)
    (m : Machine W Disk) : Option StepAction × Machine W Disk :=
  let (found, m) := m.FindVM d s.Location.VMName
  let vm := found.1
  let err := found.2
  if s.Force = false ∧ err = none then
    let m := m.Put "error" (Value.error (Errorf (msgExists s.Location.VMName err)))
    (some StepAction.ActionHalt, m)
  else if s.Force = true ∧ err = none then
    let m := m.Say (msgDeleting s.Location.VMName)
    let (err, m) := m.Destroy d vm
    match err with
    | some e =>
      (none, m.Put "error" (Value.error (Errorf (msgDestroying s.Location.VMName e))))
    | none => (none, m)
  else
    (none, m)

/-- Lines 76-104 of `Run`: the creation and the branch on its outcome. -/
def StepCreateVM.create {W Disk : Type} (s : StepCreateVM Disk) (d : driver.Driver W Disk)
    (m : Machine W Disk) : StepAction × Machine W Disk :=
  let m := m.Say "Creating VM..."
  let (created, m) := m.CreateVM d s.request
  let vm := created.1
  match created.2 with
  | some e =>
    let m := m.Put "error" (Value.error (Errorf (msgCreating e)))
    (StepAction.ActionHalt, m)
  | none =>
    let m := m.Put "vm" (Value.vm vm)
    (StepAction.ActionContinue, m)

/-- The method `(*StepCreateVM).Run` (lines 59-105). The result is `none`
when one of the type assertions of lines 60-61 panics. -/
def StepCreateVM.Run {W Disk : Type} (s : StepCreateVM Disk) (d : driver.Driver W Disk)
    (m : Machine W Disk) : Option (StepAction × Machine W Disk) :=
  match asUi (m.bag.Get "ui") with
  | none => none
  | some _ =>
    match asDriver (m.bag.Get "driver") with
    | none => none
    | some _ =>
      match s.resolve d m with
      | (some a, m) => some (a, m)
      | (none, m) => some (s.create d m)

/-- The method `(*StepCreateVM).Cleanup` (lines 107-127). The result is
`none` when a type assertion panics. -/
def StepCreateVM.Cleanup {W Disk : Type} (_s : StepCreateVM Disk) (d : driver.Driver W Disk)
    (m : Machine W Disk) : Option (Machine W Disk) :=
  let cancelled := (m.bag.GetOk StateCancelled).2
  let halted := (m.bag.GetOk StateHalted).2
  if !cancelled && !halted then
    some m
  else
    match asUi (m.bag.Get "ui") with
    | none => none
    | some _ =>
      let st := m.bag.Get "vm"
      if st = Value.nil then
        some m
      else
        match asVirtualMachine st with
        | none => none
        | some vm =>
          let m := m.Say "Destroying VM..."
          let (err, m) := m.Destroy d vm
          match err with
          | some e => some (m.Error e.msg)
          | none => some m

/-- The state bag holds a `packer.Ui` under `ui` and a `*driver.Driver`
under `driver`, as lines 60-61 assert. -/
def Machine.ready {W Disk : Type} (m : Machine W Disk) : Prop :=
  m.bag.Get "ui" = Value.ui ∧ m.bag.Get "driver" = Value.driver

instance {W Disk : Type} (m : Machine W Disk) : Decidable m.ready := by
  unfold Machine.ready; exact inferInstance

/-- The effects that `m'` has performed after `m`. -/
def Machine.since {W Disk : Type} (m' m : Machine W Disk) : List (Event Disk) :=
  m'.trace.drop m.trace.length

/-- The number of `Destroy` calls in a trace. -/
def destroyCalls {Disk : Type} : List (Event Disk) → Nat
  | [] => 0
  | Event.Destroy _ :: es => destroyCalls es + 1
  | _ :: es => destroyCalls es

/-- The number of `CreateVM` calls in a trace. -/
def createCalls {Disk : Type} : List (Event Disk) → Nat
  | [] => 0
  | Event.CreateVM _ :: es => createCalls es + 1
  | _ :: es => createCalls es

/-- The number of writes to the state bag in a trace. -/
def putCalls {Disk : Type} : List (Event Disk) → Nat
  | [] => 0
  | Event.Put _ _ :: es => putCalls es + 1
  | _ :: es => putCalls es

/-- The number of writes to the key `key` in a trace. -/
def putsTo {Disk : Type} (key : String) : List (Event Disk) → Nat
  | [] => 0
  | Event.Put k _ :: es => (if k = key then 1 else 0) + putsTo key es
  | _ :: es => putsTo key es

/-- The text `sub` occurs in the text `s`. -/
def occursIn (sub s : String) : Prop :=
  sub.data <:+: s.data

instance (sub s : String) : Decidable (occursIn sub s) := by
  unfold occursIn; exact inferInstance

/-- A driver whose three calls return fixed results; its remote side is the
number of driver calls made so far. -/
def scriptedDriver (find : driver.VirtualMachine × Option GoError) (destroy : Option GoError)
    (create : driver.VirtualMachine × Option GoError) : driver.Driver Nat Nat where
  FindVM _ w := (find, w + 1)
  CreateVM _ w := (create, w + 1)
  Destroy _ w := (destroy, w + 1)

/-- A step for the VM `web01` with one 40 GB disk given by `disk_size`. -/
def web01 (force : Bool) : StepCreateVM Nat where
  Config :=
    { Version := 13, GuestOSType := "otherGuest", Firmware := "bios",
      DiskControllerType := "pvscsi", DiskSize := 40960, DiskThinProvisioned := true,
      Network := "VM Network", NetworkCard := "vmxnet3", USBController := false,
      Notes := "built by packer", GlobalDiskType := "", Networks := [], Storage := [] }
  Location :=
    { VMName := "web01", Folder := "builds", Cluster := "cluster1", Host := "esx1",
      ResourcePool := "pool1", Datastore := "datastore1" }
  Force := force

/-- A state as the builder hands it to the first step: a `packer.Ui` and a
driver in the bag, no driver call made, no effect performed. -/
def startMachine : Machine Nat Nat where
  world := 0
  bag := [("ui", Value.ui), ("driver", Value.driver)]
  trace := []

/-- The number of `FindVM` calls in a trace. -/
def findCalls {Disk : Type} : List (Event Disk) → Nat
  | [] => 0
  | Event.FindVM _ :: es => findCalls es + 1
  | _ :: es => findCalls es

/-- The messages of a trace, `ui.Say` and `ui.Error` alike, oldest first. -/
def messages {Disk : Type} : List (Event Disk) → List String
  | [] => []
  | Event.Say msg :: es => msg :: messages es
  | Event.Error msg :: es => msg :: messages es
  | _ :: es => messages es

/-- The texts passed to `ui.Error` in a trace, oldest first. -/
def errorMessages {Disk : Type} : List (Event Disk) → List String
  | [] => []
  | Event.Error msg :: es => msg :: errorMessages es
  | _ :: es => errorMessages es

/-- The state of scenario E: a run that created handle 8 for `web01` and
stored it, then the runner marked the pipeline as cancelled. -/
def cancelledMachine : Machine Nat Nat where
  world := 2
  bag := [("cancelled", Value.bool true), ("vm", Value.vm ⟨8⟩), ("ui", Value.ui),
    ("driver", Value.driver)]
  trace := []

/-- The state of scenario F: a run that created handle 8 for `web01` and
stored it; the pipeline went on to its end, with no marker. -/
def finishedMachine : Machine Nat Nat where
  world := 2
  bag := [("vm", Value.vm ⟨8⟩), ("ui", Value.ui), ("driver", Value.driver)]
  trace := []

/-- A halted pipeline in which no handle was stored: `Run` halted on a
conflict and wrote only the error. -/
def haltedMachine : Machine Nat Nat where
  world := 1
  bag := [("halted", Value.bool true),
    ("error", Value.error ⟨"web01 already exists, you can use -force flag to destroy it: <nil>"⟩),
    ("ui", Value.ui), ("driver", Value.driver)]
  trace := []

end iso

open iso multistep

/-! ## Helper lemmas -/

theorem errMutuallyExclusive_ne_errOneRequired : errMutuallyExclusive ≠ errOneRequired := by
  decide

theorem errMutuallyExclusive_ne_errFirmware : errMutuallyExclusive ≠ errFirmware := by
  decide

theorem errOneRequired_ne_errFirmware : errOneRequired ≠ errFirmware := by
  decide

theorem prepare_errs_eq {Disk : Type} (c : CreateConfig Disk) :
    c.Prepare.1 =
      (if c.DiskSize ≠ 0 ∧ c.Storage.length ≠ 0 then [errMutuallyExclusive]
        else if c.DiskSize = 0 ∧ c.Storage.length = 0 then [errOneRequired] else []) ++
      (if c.Firmware ≠ "" ∧ c.Firmware ≠ "bios" ∧ c.Firmware ≠ "efi" then [errFirmware]
        else []) := by
  have hfw : (prepareGuestOS c).Firmware = c.Firmware := by
    unfold prepareGuestOS; split <;> rfl
  simp only [CreateConfig.Prepare, prepareDisk, prepareFirmware, hfw]
  split_ifs <;> simp

/-! ## The configuration validator -/

/-- C1: the error list of `Prepare` holds the "mutually exclusive" error
exactly when `DiskSize` is not zero and `Storage` is not empty, holds the
"is required" error exactly when `DiskSize` is zero and `Storage` is empty,
and holds neither exactly when one of the two options is given and the other
is not (a negative `DiskSize` counts as given). -/
theorem prepare_disk_rule {Disk : Type} (c : CreateConfig Disk) :
    (errMutuallyExclusive ∈ c.Prepare.1 ↔ c.DiskSize ≠ 0 ∧ c.Storage ≠ []) ∧
    (errOneRequired ∈ c.Prepare.1 ↔ c.DiskSize = 0 ∧ c.Storage = []) ∧
    ((errMutuallyExclusive ∉ c.Prepare.1 ∧ errOneRequired ∉ c.Prepare.1) ↔
      (c.DiskSize ≠ 0 ↔ c.Storage = [])) := by
  have h1 := errMutuallyExclusive_ne_errOneRequired
  have h2 := errMutuallyExclusive_ne_errFirmware
  have h3 := errOneRequired_ne_errFirmware
  rw [prepare_errs_eq]
  simp only [ne_eq, List.length_eq_zero]
  split_ifs <;> simp_all [eq_comm] <;> tauto

/-- C2: when `Firmware` is the empty string, `bios` or `efi`, the error list
of `Prepare` holds no firmware error; for every other string (compared as
it is, so `BIOS` is another string) it holds the firmware error exactly
once. -/
theorem prepare_firmware_rule {Disk : Type} (c : CreateConfig Disk) :
    c.Prepare.1.count errFirmware =
      (if c.Firmware = "" ∨ c.Firmware = "bios" ∨ c.Firmware = "efi" then 0 else 1) ∧
    (errFirmware ∈ c.Prepare.1 ↔
      ¬ (c.Firmware = "" ∨ c.Firmware = "bios" ∨ c.Firmware = "efi")) := by
  have h2 := errMutuallyExclusive_ne_errFirmware
  have h3 := errOneRequired_ne_errFirmware
  rw [prepare_errs_eq]
  split_ifs <;> simp_all [List.count_cons, eq_comm]

/-- C3: when `GuestOSType` is the empty string, `Prepare` leaves it equal to
`otherGuest`, whatever the error list is. -/
theorem prepare_defaults_guest_os {Disk : Type} (c : CreateConfig Disk)
    (h : c.GuestOSType = "") : c.Prepare.2.GuestOSType = "otherGuest" := by
  simp [CreateConfig.Prepare, prepareGuestOS, h]

/-- Witness of C3: a config with an empty `GuestOSType` that also breaks the
disk rule and the firmware rule. -/
theorem prepare_defaults_guest_os_witness :
    (⟨13, "", "uefi", "pvscsi", 0, true, "VM Network", "vmxnet3", false, "", "", [], []⟩ :
        CreateConfig Nat).GuestOSType = "" ∧
      (CreateConfig.Prepare (⟨13, "", "uefi", "pvscsi", 0, true, "VM Network", "vmxnet3",
        false, "", "", [], []⟩ : CreateConfig Nat)).1 = [errOneRequired, errFirmware] ∧
      (CreateConfig.Prepare (⟨13, "", "uefi", "pvscsi", 0, true, "VM Network", "vmxnet3",
        false, "", "", [], []⟩ : CreateConfig Nat)).2.GuestOSType = "otherGuest" :=
  ⟨rfl, by decide, prepare_defaults_guest_os _ rfl⟩

/-- C4: `Prepare` collects every violation: the error list is the disk error
(when the disk rule is violated) followed by the firmware error (when the
firmware rule is violated), so its length is the number of violated rules,
the disk error comes first, and it is empty exactly when no rule is
violated. -/
theorem prepare_collects_all {Disk : Type} (c : CreateConfig Disk) :
    c.Prepare.1 =
      (if diskViolated c then [diskError c] else []) ++
        (if firmwareViolated c then [errFirmware] else []) ∧
    c.Prepare.1.length =
      (if diskViolated c then 1 else 0) + (if firmwareViolated c then 1 else 0) ∧
    (c.Prepare.1 = [] ↔ diskViolated c = false ∧ firmwareViolated c = false) := by
  have key : c.Prepare.1 =
      (if diskViolated c then [diskError c] else []) ++
        (if firmwareViolated c then [errFirmware] else []) := by
    rw [prepare_errs_eq]
    congr 1
    · unfold diskViolated diskError
      cases hS : c.Storage <;> by_cases hD : c.DiskSize = 0 <;> simp [hD]
    · unfold firmwareViolated
      split_ifs <;> simp_all
  refine ⟨key, ?_, ?_⟩
  · rw [key]
    cases diskViolated c <;> cases firmwareViolated c <;> rfl
  · rw [key]
    cases diskViolated c <;> cases firmwareViolated c <;> simp

/-! ## The state bag -/

theorem lookup_filter_ne (b : StateBag) (k k' : String) (h : k' ≠ k) :
    List.lookup k' (b.filter (fun kv => kv.1 != k)) = List.lookup k' b := by
  induction b with
  | nil => rfl
  | cons kv b ih =>
    obtain ⟨k0, v0⟩ := kv
    by_cases h0 : k0 = k
    · subst h0
      have hk : (k' == k0) = false := by simpa using h
      simp [List.filter_cons, List.lookup_cons, ih, hk]
    · have hk : (k0 != k) = true := by simpa using h0
      simp [List.filter_cons, List.lookup_cons, ih, hk]

theorem get_put_same (b : StateBag) (k : String) (v : Value) : (b.Put k v).Get k = v := by
  simp [StateBag.Get, StateBag.GetOk, StateBag.Put, List.lookup_cons]

theorem get_put_other (b : StateBag) (k k' : String) (v : Value) (h : k' ≠ k) :
    (b.Put k v).Get k' = b.Get k' := by
  have hk : (k' == k) = false := by simpa using h
  simp [StateBag.Get, StateBag.GetOk, StateBag.Put, List.lookup_cons, hk,
    lookup_filter_ne b k k' h]

/-! ## The step `Run` -/

theorem run_of_ready {W Disk : Type} (s : StepCreateVM Disk) (d : driver.Driver W Disk)
    (m : Machine W Disk) (hready : m.ready) :
    s.Run d m = some (match s.resolve d m with
      | (some a, m1) => (a, m1)
      | (none, m1) => s.create d m1) := by
  obtain ⟨hui, hdrv⟩ := hready
  unfold StepCreateVM.Run
  rw [hui, hdrv]
  simp only [asUi, asDriver]
  split <;> simp_all

theorem occursIn_append_left (a b : String) : occursIn a (a ++ b) := by
  unfold occursIn
  rw [String.data_append]
  exact (List.prefix_append _ _).isInfix

theorem occursIn_append_right (a b : String) : occursIn b (a ++ b) := by
  unfold occursIn
  rw [String.data_append]
  exact (List.suffix_append _ _).isInfix

theorem occursIn_trans {a b c : String} (h1 : occursIn a b) (h2 : occursIn b c) :
    occursIn a c :=
  List.IsInfix.trans h1 h2

theorem resolve_conflict {W Disk : Type} (s : StepCreateVM Disk) (d : driver.Driver W Disk)
    (m : Machine W Disk) (hforce : s.Force = false)
    (hfound : (d.FindVM s.Location.VMName m.world).1.2 = none) :
    s.resolve d m = (some StepAction.ActionHalt,
      (m.FindVM d s.Location.VMName).2.Put "error"
        (Value.error (Errorf (msgExists s.Location.VMName none)))) := by
  simp [StepCreateVM.resolve, Machine.FindVM, hforce, hfound]

theorem resolve_absent {W Disk : Type} (s : StepCreateVM Disk) (d : driver.Driver W Disk)
    (m : Machine W Disk) (hfind : (d.FindVM s.Location.VMName m.world).1.2 ≠ none) :
    s.resolve d m = (none, (m.FindVM d s.Location.VMName).2) := by
  simp [StepCreateVM.resolve, Machine.FindVM, hfind]

theorem resolve_destroyed {W Disk : Type} (s : StepCreateVM Disk) (d : driver.Driver W Disk)
    (m : Machine W Disk) (hforce : s.Force = true)
    (hfound : (d.FindVM s.Location.VMName m.world).1.2 = none)
    (hdestroy : (d.Destroy (d.FindVM s.Location.VMName m.world).1.1
      (d.FindVM s.Location.VMName m.world).2).1 = none) :
    s.resolve d m = (none,
      (((m.FindVM d s.Location.VMName).2.Say (msgDeleting s.Location.VMName)).Destroy d
        (d.FindVM s.Location.VMName m.world).1.1).2) := by
  simp [StepCreateVM.resolve, Machine.FindVM, Machine.Destroy, Machine.Say, hforce, hfound,
    hdestroy]

theorem resolve_destroy_failed {W Disk : Type} (s : StepCreateVM Disk)
    (d : driver.Driver W Disk) (m : Machine W Disk) (e : GoError) (hforce : s.Force = true)
    (hfound : (d.FindVM s.Location.VMName m.world).1.2 = none)
    (hdestroy : (d.Destroy (d.FindVM s.Location.VMName m.world).1.1
      (d.FindVM s.Location.VMName m.world).2).1 = some e) :
    s.resolve d m = (none,
      ((((m.FindVM d s.Location.VMName).2.Say (msgDeleting s.Location.VMName)).Destroy d
        (d.FindVM s.Location.VMName m.world).1.1).2).Put "error"
          (Value.error (Errorf (msgDestroying s.Location.VMName e)))) := by
  simp [StepCreateVM.resolve, Machine.FindVM, Machine.Destroy, Machine.Say, hforce, hfound,
    hdestroy]

theorem create_succeeded {W Disk : Type} (s : StepCreateVM Disk) (d : driver.Driver W Disk)
    (m : Machine W Disk) (hcreate : (d.CreateVM s.request m.world).1.2 = none) :
    s.create d m = (StepAction.ActionContinue,
      (((m.Say "Creating VM...").CreateVM d s.request).2).Put "vm"
        (Value.vm (d.CreateVM s.request m.world).1.1)) := by
  simp [StepCreateVM.create, Machine.CreateVM, Machine.Say, hcreate]

theorem create_failed {W Disk : Type} (s : StepCreateVM Disk) (d : driver.Driver W Disk)
    (m : Machine W Disk) (e : GoError) (hcreate : (d.CreateVM s.request m.world).1.2 = some e) :
    s.create d m = (StepAction.ActionHalt,
      (((m.Say "Creating VM...").CreateVM d s.request).2).Put "error"
        (Value.error (Errorf (msgCreating e)))) := by
  simp [StepCreateVM.create, Machine.CreateVM, Machine.Say, hcreate]

theorem destroyCalls_append {Disk : Type} (xs ys : List (Event Disk)) :
    destroyCalls (xs ++ ys) = destroyCalls xs + destroyCalls ys := by
  induction xs with
  | nil => simp [destroyCalls]
  | cons x xs ih => cases x <;> simp [destroyCalls, ih]; omega

theorem createCalls_append {Disk : Type} (xs ys : List (Event Disk)) :
    createCalls (xs ++ ys) = createCalls xs + createCalls ys := by
  induction xs with
  | nil => simp [createCalls]
  | cons x xs ih => cases x <;> simp [createCalls, ih]; omega

theorem putCalls_append {Disk : Type} (xs ys : List (Event Disk)) :
    putCalls (xs ++ ys) = putCalls xs + putCalls ys := by
  induction xs with
  | nil => simp [putCalls]
  | cons x xs ih => cases x <;> simp [putCalls, ih]; omega

theorem putsTo_append {Disk : Type} (key : String) (xs ys : List (Event Disk)) :
    putsTo key (xs ++ ys) = putsTo key xs + putsTo key ys := by
  induction xs with
  | nil => simp [putsTo]
  | cons x xs ih => cases x <;> simp [putsTo, ih]; omega

theorem resolve_falls_through_iff {W Disk : Type} (s : StepCreateVM Disk)
    (d : driver.Driver W Disk) (m : Machine W Disk) :
    (s.resolve d m).1 = none ↔
      ¬ (s.Force = false ∧ (d.FindVM s.Location.VMName m.world).1.2 = none) := by
  rcases hfind : d.FindVM s.Location.VMName m.world with ⟨⟨vm0, err0⟩, w1⟩
  rcases hdestroy : d.Destroy vm0 w1 with ⟨err1, w2⟩
  cases hforce : s.Force <;> cases err0 <;> cases err1 <;>
    simp [StepCreateVM.resolve, Machine.FindVM, Machine.Destroy, Machine.Say, hfind,
      hdestroy, hforce]

theorem resolve_effects {W Disk : Type} (s : StepCreateVM Disk) (d : driver.Driver W Disk)
    (m : Machine W Disk) :
    ∃ evs, (s.resolve d m).2.trace = m.trace ++ evs ∧ putsTo "vm" evs = 0 ∧
      createCalls evs = 0 ∧ (s.resolve d m).2.bag.Get "vm" = m.bag.Get "vm" := by
  rcases hfind : d.FindVM s.Location.VMName m.world with ⟨⟨vm0, err0⟩, w1⟩
  rcases hdestroy : d.Destroy vm0 w1 with ⟨err1, w2⟩
  cases hforce : s.Force <;> cases err0 <;> cases err1 <;>
    simp [StepCreateVM.resolve, Machine.FindVM, Machine.Destroy, Machine.Say, Machine.Put,
      hfind, hdestroy, hforce, putsTo, createCalls, get_put_other]

theorem msgExists_none (name : String) :
    msgExists name none =
      name ++ " already exists, you can use -force flag to destroy it: <nil>" := by
  unfold msgExists fmtV
  rw [String.append_assoc]
  rfl

/-- C5: with `Force` false and a lookup that succeeds, `Run` halts: its only
effects after the lookup are one write of an error to the key `error`; it
calls neither `Destroy` nor `CreateVM`, writes nothing under `vm`, and the
message of the error holds the VM name, `already exists` and `-force`. -/
theorem run_halts_on_conflict_without_force {W Disk : Type} (s : StepCreateVM Disk)
    (d : driver.Driver W Disk) (m : Machine W Disk) (hready : m.ready)
    (hforce : s.Force = false)
    (hfound : (d.FindVM s.Location.VMName m.world).1.2 = none) :
    ∃ m' e, s.Run d m = some (StepAction.ActionHalt, m') ∧
      m'.since m = [Event.FindVM s.Location.VMName, Event.Put "error" (Value.error e)] ∧
      destroyCalls (m'.since m) = 0 ∧ createCalls (m'.since m) = 0 ∧
      putsTo "vm" (m'.since m) = 0 ∧
      m'.bag.Get "error" = Value.error e ∧ m'.bag.Get "vm" = m.bag.Get "vm" ∧
      e.msg = s.Location.VMName ++
        " already exists, you can use -force flag to destroy it: <nil>" ∧
      occursIn s.Location.VMName e.msg ∧ occursIn "already exists" e.msg ∧
      occursIn "-force" e.msg := by
  refine ⟨(m.FindVM d s.Location.VMName).2.Put "error"
    (Value.error (Errorf (msgExists s.Location.VMName none))),
    Errorf (msgExists s.Location.VMName none), ?_, ?_⟩
  · rw [run_of_ready s d m hready, resolve_conflict s d m hforce hfound]
  · simp only [Errorf, msgExists_none]
    refine ⟨?_, ?_, ?_, ?_, ?_, ?_, trivial, occursIn_append_left _ _, ?_, ?_⟩
    · simp [Machine.since, Machine.Put, Machine.FindVM]
    · simp [Machine.since, Machine.Put, Machine.FindVM, destroyCalls]
    · simp [Machine.since, Machine.Put, Machine.FindVM, createCalls]
    · simp [Machine.since, Machine.Put, Machine.FindVM, putsTo]
    · simp [Machine.Put, get_put_same]
    · simp [Machine.Put, Machine.FindVM, get_put_other]
    · exact occursIn_trans (by decide) (occursIn_append_right _ _)
    · exact occursIn_trans (by decide) (occursIn_append_right _ _)

/-- Witness of C5: `web01` exists (the lookup returns handle 7 and no error)
and `Force` is false. -/
theorem run_halts_on_conflict_without_force_witness :
    startMachine.ready ∧ (web01 false).Force = false ∧
      ((scriptedDriver (⟨7⟩, none) none (⟨8⟩, none)).FindVM (web01 false).Location.VMName
        startMachine.world).1.2 = none ∧
      ∃ m', (web01 false).Run (scriptedDriver (⟨7⟩, none) none (⟨8⟩, none)) startMachine =
          some (StepAction.ActionHalt, m') ∧
        createCalls (m'.since startMachine) = 0 ∧
        m'.bag.Get "error" = Value.error
          ⟨"web01 already exists, you can use -force flag to destroy it: <nil>"⟩ :=
  ⟨by decide, rfl, rfl,
    match run_halts_on_conflict_without_force (web01 false)
      (scriptedDriver (⟨7⟩, none) none (⟨8⟩, none)) startMachine (by decide) rfl rfl with
    | ⟨m', e, h1, _, _, h3, _, h5, _, h7, _⟩ =>
      ⟨m', h1, h3, by rw [h5]; congr 1; cases e; exact congrArg GoError.mk h7⟩⟩

/-- C6: when the lookup returns an error, whatever `Force` is, `Run` goes
straight to the creation: after the lookup it says `Creating VM...` and
calls `CreateVM`, it calls `Destroy` never and `CreateVM` once, and when
`CreateVM` returns no error the returned handle is under `vm` and the
result is `ActionContinue`. -/
theorem run_creates_when_lookup_fails {W Disk : Type} (s : StepCreateVM Disk)
    (d : driver.Driver W Disk) (m : Machine W Disk) (vm0 vm1 : driver.VirtualMachine)
    (e0 : GoError) (err1 : Option GoError) (w1 w2 : W) (hready : m.ready)
    (hfind : d.FindVM s.Location.VMName m.world = ((vm0, some e0), w1))
    (hcreate : d.CreateVM s.request w1 = ((vm1, err1), w2)) :
    ∃ a m', s.Run d m = some (a, m') ∧
      [Event.FindVM s.Location.VMName, Event.Say "Creating VM...", Event.CreateVM s.request]
        <+: m'.since m ∧
      destroyCalls (m'.since m) = 0 ∧ createCalls (m'.since m) = 1 ∧
      (err1 = none → a = StepAction.ActionContinue ∧ m'.bag.Get "vm" = Value.vm vm1) := by
  have hfind' : (d.FindVM s.Location.VMName m.world).1.2 ≠ none := by simp [hfind]
  rw [run_of_ready s d m hready, resolve_absent s d m hfind']
  cases err1 with
  | none =>
    have hc : (d.CreateVM s.request (m.FindVM d s.Location.VMName).2.world).1.2 = none := by
      simp [Machine.FindVM, hfind, hcreate]
    simp only [create_succeeded s d _ hc]
    refine ⟨_, _, rfl, ?_, ?_, ?_, ?_⟩
    · simp [Machine.since, Machine.Put, Machine.FindVM, Machine.CreateVM, Machine.Say,
        List.prefix_iff_eq_append]
    · simp [Machine.since, Machine.Put, Machine.FindVM, Machine.CreateVM, Machine.Say,
        destroyCalls]
    · simp [Machine.since, Machine.Put, Machine.FindVM, Machine.CreateVM, Machine.Say,
        createCalls]
    · intro _
      simp [Machine.Put, Machine.FindVM, get_put_same, hfind, hcreate]
  | some e1 =>
    have hc : (d.CreateVM s.request (m.FindVM d s.Location.VMName).2.world).1.2 = some e1 := by
      simp [Machine.FindVM, hfind, hcreate]
    simp only [create_failed s d _ e1 hc]
    refine ⟨_, _, rfl, ?_, ?_, ?_, ?_⟩
    · simp [Machine.since, Machine.Put, Machine.FindVM, Machine.CreateVM, Machine.Say,
        List.prefix_iff_eq_append]
    · simp [Machine.since, Machine.Put, Machine.FindVM, Machine.CreateVM, Machine.Say,
        destroyCalls]
    · simp [Machine.since, Machine.Put, Machine.FindVM, Machine.CreateVM, Machine.Say,
        createCalls]
    · intro h
      cases h

/-- Witness of C6: `web01` is not found, `Force` is false, and the creation
returns handle 8 (scenario A). -/
theorem run_creates_when_lookup_fails_witness :
    startMachine.ready ∧
      ∃ a m', (web01 false).Run
          (scriptedDriver (⟨0⟩, some ⟨"vm not found"⟩) none (⟨8⟩, none)) startMachine =
            some (a, m') ∧
        [Event.FindVM "web01", Event.Say "Creating VM...", Event.CreateVM (web01 false).request]
          <+: m'.since startMachine ∧
        destroyCalls (m'.since startMachine) = 0 ∧ createCalls (m'.since startMachine) = 1 ∧
        ((none : Option GoError) = none →
          a = StepAction.ActionContinue ∧ m'.bag.Get "vm" = Value.vm ⟨8⟩) :=
  ⟨by decide,
    run_creates_when_lookup_fails (web01 false)
      (scriptedDriver (⟨0⟩, some ⟨"vm not found"⟩) none (⟨8⟩, none)) startMachine
      ⟨0⟩ ⟨8⟩ ⟨"vm not found"⟩ none 1 2 (by decide) rfl rfl⟩

/-- C7: with `Force` true, a lookup that succeeds, a `Destroy` that succeeds
and a `CreateVM` that succeeds, the effects of `Run` are, in this order: the
lookup, the deletion message, `Destroy` on the found handle, the creation
message, `CreateVM`, and the write of the created handle under `vm`. So
`Destroy` and `CreateVM` are each called once, `Destroy` first, nothing is
written under `error`, and the result is `ActionContinue`. -/
theorem run_replaces_with_force {W Disk : Type} (s : StepCreateVM Disk)
    (d : driver.Driver W Disk) (m : Machine W Disk) (vm0 vm1 : driver.VirtualMachine)
    (w1 w2 w3 : W) (hready : m.ready) (hforce : s.Force = true)
    (hfind : d.FindVM s.Location.VMName m.world = ((vm0, none), w1))
    (hdestroy : d.Destroy vm0 w1 = (none, w2))
    (hcreate : d.CreateVM s.request w2 = ((vm1, none), w3)) :
    ∃ m', s.Run d m = some (StepAction.ActionContinue, m') ∧
      m'.since m =
        [Event.FindVM s.Location.VMName, Event.Say (msgDeleting s.Location.VMName),
          Event.Destroy vm0, Event.Say "Creating VM...", Event.CreateVM s.request,
          Event.Put "vm" (Value.vm vm1)] ∧
      destroyCalls (m'.since m) = 1 ∧ createCalls (m'.since m) = 1 ∧
      putsTo "error" (m'.since m) = 0 ∧
      m'.bag.Get "vm" = Value.vm vm1 ∧ m'.bag.Get "error" = m.bag.Get "error" := by
  have hf : (d.FindVM s.Location.VMName m.world).1.2 = none := by simp [hfind]
  have hd : (d.Destroy (d.FindVM s.Location.VMName m.world).1.1
      (d.FindVM s.Location.VMName m.world).2).1 = none := by simp [hfind, hdestroy]
  rw [run_of_ready s d m hready, resolve_destroyed s d m hforce hf hd]
  have hc : (d.CreateVM s.request
      (((m.FindVM d s.Location.VMName).2.Say (msgDeleting s.Location.VMName)).Destroy d
        (d.FindVM s.Location.VMName m.world).1.1).2.world).1.2 = none := by
    simp [Machine.FindVM, Machine.Destroy, Machine.Say, hfind, hdestroy, hcreate]
  simp only [create_succeeded s d _ hc]
  refine ⟨_, rfl, ?_, ?_, ?_, ?_, ?_, ?_⟩
  · simp [Machine.since, Machine.Put, Machine.FindVM, Machine.CreateVM, Machine.Say,
      Machine.Destroy, hfind, hdestroy, hcreate]
  · simp [Machine.since, Machine.Put, Machine.FindVM, Machine.CreateVM, Machine.Say,
      Machine.Destroy, destroyCalls]
  · simp [Machine.since, Machine.Put, Machine.FindVM, Machine.CreateVM, Machine.Say,
      Machine.Destroy, createCalls]
  · simp [Machine.since, Machine.Put, Machine.FindVM, Machine.CreateVM, Machine.Say,
      Machine.Destroy, putsTo]
  · simp [Machine.Put, Machine.FindVM, Machine.CreateVM, Machine.Say, Machine.Destroy,
      get_put_same, hfind, hdestroy, hcreate]
  · simp [Machine.Put, Machine.FindVM, Machine.CreateVM, Machine.Say, Machine.Destroy,
      get_put_other]

/-- Witness of C7: `web01` exists as handle 7, `Force` is true, the
destruction succeeds and the creation returns handle 8 (scenario C). -/
theorem run_replaces_with_force_witness :
    startMachine.ready ∧ (web01 true).Force = true ∧
      ∃ m', (web01 true).Run (scriptedDriver (⟨7⟩, none) none (⟨8⟩, none)) startMachine =
          some (StepAction.ActionContinue, m') ∧
        m'.since startMachine =
          [Event.FindVM "web01",
            Event.Say "the vm/template web01 already exists, but deleting it due to -force flag",
            Event.Destroy ⟨7⟩, Event.Say "Creating VM...",
            Event.CreateVM (web01 true).request, Event.Put "vm" (Value.vm ⟨8⟩)] ∧
        destroyCalls (m'.since startMachine) = 1 ∧ createCalls (m'.since startMachine) = 1 ∧
        putsTo "error" (m'.since startMachine) = 0 ∧
        m'.bag.Get "vm" = Value.vm ⟨8⟩ ∧ m'.bag.Get "error" = startMachine.bag.Get "error" :=
  ⟨by decide, rfl,
    run_replaces_with_force (web01 true) (scriptedDriver (⟨7⟩, none) none (⟨8⟩, none))
      startMachine ⟨7⟩ ⟨8⟩ 1 2 3 (by decide) rfl rfl rfl rfl⟩

/-- C8: on every path of `Run` that reaches `CreateVM` (every path but the
conflict without `Force`), when `CreateVM` returns the error `e`, `Run`
returns `ActionHalt`, its last effect is the write under `error` of an error
whose message is `error creating vm: ` followed by the message of `e`, and
it writes nothing under `vm`. -/
theorem run_halts_when_create_fails {W Disk : Type} (s : StepCreateVM Disk)
    (d : driver.Driver W Disk) (m : Machine W Disk) (vm1 : driver.VirtualMachine)
    (e : GoError) (w' : W) (hready : m.ready)
    (hreach : ¬ (s.Force = false ∧ (d.FindVM s.Location.VMName m.world).1.2 = none))
    (hcreate : d.CreateVM s.request (s.resolve d m).2.world = ((vm1, some e), w')) :
    ∃ m', s.Run d m = some (StepAction.ActionHalt, m') ∧
      createCalls (m'.since m) = 1 ∧
      (m'.since m).getLast? =
        some (Event.Put "error" (Value.error ⟨"error creating vm: " ++ e.msg⟩)) ∧
      m'.bag.Get "error" = Value.error ⟨"error creating vm: " ++ e.msg⟩ ∧
      occursIn e.msg ("error creating vm: " ++ e.msg) ∧
      putsTo "vm" (m'.since m) = 0 ∧ m'.bag.Get "vm" = m.bag.Get "vm" := by
  have hnone : (s.resolve d m).1 = none := (resolve_falls_through_iff s d m).2 hreach
  have hres : s.resolve d m = (none, (s.resolve d m).2) := Prod.ext hnone rfl
  have hc : (d.CreateVM s.request (s.resolve d m).2.world).1.2 = some e := by rw [hcreate]
  obtain ⟨evs, htrace, hvm, hcr, hbag⟩ := resolve_effects s d m
  rw [run_of_ready s d m hready, hres]
  simp only [create_failed s d _ e hc]
  refine ⟨_, rfl, ?_, ?_, ?_, occursIn_append_right _ _, ?_, ?_⟩
  · simp [Machine.since, Machine.Put, Machine.CreateVM, Machine.Say, htrace, createCalls,
      createCalls_append, hcr]
  · simp [Machine.since, Machine.Put, Machine.CreateVM, Machine.Say, htrace, Errorf,
      msgCreating, fmtV]
  · simp [Machine.Put, get_put_same, Errorf, msgCreating, fmtV]
  · simp [Machine.since, Machine.Put, Machine.CreateVM, Machine.Say, htrace, putsTo,
      putsTo_append, hvm]
  · simp [Machine.Put, Machine.CreateVM, Machine.Say, get_put_other, hbag]

/-- Witness of C8: `web01` is not found, `Force` is false, and the creation
fails with `quota exceeded` (scenario D). -/
theorem run_halts_when_create_fails_witness :
    startMachine.ready ∧
      ∃ m', (web01 false).Run
          (scriptedDriver (⟨0⟩, some ⟨"vm not found"⟩) none (⟨0⟩, some ⟨"quota exceeded"⟩))
            startMachine = some (StepAction.ActionHalt, m') ∧
        createCalls (m'.since startMachine) = 1 ∧
        (m'.since startMachine).getLast? =
          some (Event.Put "error" (Value.error ⟨"error creating vm: " ++ "quota exceeded"⟩)) ∧
        m'.bag.Get "error" = Value.error ⟨"error creating vm: " ++ "quota exceeded"⟩ ∧
        occursIn "quota exceeded" ("error creating vm: " ++ "quota exceeded") ∧
        putsTo "vm" (m'.since startMachine) = 0 ∧
        m'.bag.Get "vm" = startMachine.bag.Get "vm" :=
  ⟨by decide,
    run_halts_when_create_fails (web01 false)
      (scriptedDriver (⟨0⟩, some ⟨"vm not found"⟩) none (⟨0⟩, some ⟨"quota exceeded"⟩))
      startMachine ⟨0⟩ ⟨"quota exceeded"⟩ 2 (by decide) (by decide) rfl⟩

/-- C9: with `Force` true, a lookup that succeeds and a `Destroy` that fails
with the error `e`, `Run` writes the destroy error under `error` and goes on:
it says `Creating VM...` and calls `CreateVM`, once. When that `CreateVM`
returns no error, the result is `ActionContinue`, the created handle is
under `vm`, and the destroy error is still under `error`. -/
theorem run_continues_after_failed_destroy {W Disk : Type} (s : StepCreateVM Disk)
    (d : driver.Driver W Disk) (m : Machine W Disk) (vm0 vm1 : driver.VirtualMachine)
    (e : GoError) (err1 : Option GoError) (w1 w2 w3 : W) (hready : m.ready)
    (hforce : s.Force = true)
    (hfind : d.FindVM s.Location.VMName m.world = ((vm0, none), w1))
    (hdestroy : d.Destroy vm0 w1 = (some e, w2))
    (hcreate : d.CreateVM s.request w2 = ((vm1, err1), w3)) :
    ∃ a m', s.Run d m = some (a, m') ∧
      [Event.FindVM s.Location.VMName, Event.Say (msgDeleting s.Location.VMName),
        Event.Destroy vm0,
        Event.Put "error" (Value.error ⟨"error destroying " ++ s.Location.VMName ++ ": " ++ e.msg⟩),
        Event.Say "Creating VM...", Event.CreateVM s.request] <+: m'.since m ∧
      createCalls (m'.since m) = 1 ∧
      (err1 = none → a = StepAction.ActionContinue ∧ m'.bag.Get "vm" = Value.vm vm1 ∧
        m'.bag.Get "error" =
          Value.error ⟨"error destroying " ++ s.Location.VMName ++ ": " ++ e.msg⟩) := by
  have hf : (d.FindVM s.Location.VMName m.world).1.2 = none := by simp [hfind]
  have hd : (d.Destroy (d.FindVM s.Location.VMName m.world).1.1
      (d.FindVM s.Location.VMName m.world).2).1 = some e := by simp [hfind, hdestroy]
  rw [run_of_ready s d m hready, resolve_destroy_failed s d m e hforce hf hd]
  cases err1 with
  | none =>
    have hc : (d.CreateVM s.request
        ((((m.FindVM d s.Location.VMName).2.Say (msgDeleting s.Location.VMName)).Destroy d
          (d.FindVM s.Location.VMName m.world).1.1).2.Put "error"
            (Value.error (Errorf (msgDestroying s.Location.VMName e)))).world).1.2 = none := by
      simp [Machine.FindVM, Machine.Destroy, Machine.Say, Machine.Put, hfind, hdestroy,
        hcreate]
    simp only [create_succeeded s d _ hc]
    refine ⟨_, _, rfl, ?_, ?_, ?_⟩
    · simp [Machine.since, Machine.Put, Machine.FindVM, Machine.CreateVM, Machine.Say,
        Machine.Destroy, List.prefix_iff_eq_append, hfind, Errorf, msgDestroying, fmtV]
    · simp [Machine.since, Machine.Put, Machine.FindVM, Machine.CreateVM, Machine.Say,
        Machine.Destroy, createCalls]
    · intro _
      refine ⟨rfl, ?_, ?_⟩
      · simp [Machine.Put, Machine.FindVM, Machine.CreateVM, Machine.Say, Machine.Destroy,
          get_put_same, hfind, hdestroy, hcreate]
      · simp [Machine.Put, Machine.FindVM, Machine.CreateVM, Machine.Say, Machine.Destroy,
          get_put_same, get_put_other, Errorf, msgDestroying, fmtV]
  | some e1 =>
    have hc : (d.CreateVM s.request
        ((((m.FindVM d s.Location.VMName).2.Say (msgDeleting s.Location.VMName)).Destroy d
          (d.FindVM s.Location.VMName m.world).1.1).2.Put "error"
            (Value.error (Errorf (msgDestroying s.Location.VMName e)))).world).1.2 =
              some e1 := by
      simp [Machine.FindVM, Machine.Destroy, Machine.Say, Machine.Put, hfind, hdestroy,
        hcreate]
    simp only [create_failed s d _ e1 hc]
    refine ⟨_, _, rfl, ?_, ?_, ?_⟩
    · simp [Machine.since, Machine.Put, Machine.FindVM, Machine.CreateVM, Machine.Say,
        Machine.Destroy, List.prefix_iff_eq_append, hfind, Errorf, msgDestroying, fmtV]
    · simp [Machine.since, Machine.Put, Machine.FindVM, Machine.CreateVM, Machine.Say,
        Machine.Destroy, createCalls]
    · intro h
      cases h

/-- Witness of C9: `web01` exists as handle 7, `Force` is true, the
destruction fails with `vm is busy` and the creation returns handle 8. -/
theorem run_continues_after_failed_destroy_witness :
    startMachine.ready ∧ (web01 true).Force = true ∧
      ∃ a m', (web01 true).Run
          (scriptedDriver (⟨7⟩, none) (some ⟨"vm is busy"⟩) (⟨8⟩, none)) startMachine =
            some (a, m') ∧
        [Event.FindVM "web01", Event.Say (msgDeleting "web01"), Event.Destroy ⟨7⟩,
          Event.Put "error" (Value.error ⟨"error destroying " ++ "web01" ++ ": " ++ "vm is busy"⟩),
          Event.Say "Creating VM...", Event.CreateVM (web01 true).request]
            <+: m'.since startMachine ∧
        createCalls (m'.since startMachine) = 1 ∧
        ((none : Option GoError) = none →
          a = StepAction.ActionContinue ∧ m'.bag.Get "vm" = Value.vm ⟨8⟩ ∧
          m'.bag.Get "error" =
            Value.error ⟨"error destroying " ++ "web01" ++ ": " ++ "vm is busy"⟩) :=
  ⟨by decide, rfl,
    run_continues_after_failed_destroy (web01 true)
      (scriptedDriver (⟨7⟩, none) (some ⟨"vm is busy"⟩) (⟨8⟩, none)) startMachine
      ⟨7⟩ ⟨8⟩ ⟨"vm is busy"⟩ none 1 2 3 (by decide) rfl rfl rfl rfl⟩

/-- The number of writes of a `Run` that reaches `CreateVM`: two when
`Force` is true, the lookup succeeded and `Destroy` failed (line 72 writes
the destroy error and does not return), one on every other path. -/
theorem run_put_count {W Disk : Type} (s : StepCreateVM Disk) (d : driver.Driver W Disk)
    (m : Machine W Disk) (hready : m.ready)
    (hreach : ¬ (s.Force = false ∧ (d.FindVM s.Location.VMName m.world).1.2 = none)) :
    (s.Run d m).map (fun r => putCalls (r.2.since m)) =
      some (if s.Force = true ∧ (d.FindVM s.Location.VMName m.world).1.2 = none ∧
            (d.Destroy (d.FindVM s.Location.VMName m.world).1.1
              (d.FindVM s.Location.VMName m.world).2).1 ≠ none
        then 2 else 1) := by
  obtain ⟨hui, hdrv⟩ := hready
  rcases hfind : d.FindVM s.Location.VMName m.world with ⟨⟨vm0, err0⟩, w1⟩
  rcases hdestroy : d.Destroy vm0 w1 with ⟨err1, w2⟩
  rcases hc1 : d.CreateVM s.request w1 with ⟨⟨vm1, err2⟩, w3⟩
  rcases hc2 : d.CreateVM s.request w2 with ⟨⟨vm2, err3⟩, w4⟩
  rw [hfind] at hreach
  cases hforce : s.Force <;> cases err0 <;> cases err1 <;> cases err2 <;> cases err3 <;>
    simp_all [StepCreateVM.Run, asUi, asDriver, StepCreateVM.resolve, StepCreateVM.create,
      Machine.FindVM, Machine.Destroy, Machine.CreateVM, Machine.Say, Machine.Put,
      Machine.since, putCalls]

/-- C10, at the failing input: `web01` exists as handle 7, `Force` is true,
`Destroy` fails with `vm is busy` and `CreateVM` returns handle 8. `Run`
reaches `CreateVM` and performs two writes, the destroy error under `error`
and the handle under `vm`, and returns `ActionContinue`. -/
theorem run_writes_twice_after_failed_destroy :
    ((web01 true).Run (scriptedDriver (⟨7⟩, none) (some ⟨"vm is busy"⟩) (⟨8⟩, none))
        startMachine).map (fun r => (r.1, r.2.since startMachine)) =
      some (StepAction.ActionContinue,
        [Event.FindVM "web01",
          Event.Say "the vm/template web01 already exists, but deleting it due to -force flag",
          Event.Destroy ⟨7⟩,
          Event.Put "error" (Value.error ⟨"error destroying web01: vm is busy"⟩),
          Event.Say "Creating VM...", Event.CreateVM (web01 true).request,
          Event.Put "vm" (Value.vm ⟨8⟩)]) ∧
    ((web01 true).Run (scriptedDriver (⟨7⟩, none) (some ⟨"vm is busy"⟩) (⟨8⟩, none))
        startMachine).map (fun r => putCalls (r.2.since startMachine)) = some 2 := by
  constructor <;> rfl

/-! ## Properties of `Prepare` as a state change -/

theorem prepareGuestOS_idem {Disk : Type} (c : CreateConfig Disk) :
    prepareGuestOS (prepareGuestOS c) = prepareGuestOS c := by
  unfold prepareGuestOS
  by_cases h : c.GuestOSType = "" <;> simp [h]

/-- C19: `Prepare` is idempotent: called on the config that a first call
left, it returns the same error list (same errors, same order) and leaves
that config as it is. -/
theorem prepare_idempotent {Disk : Type} (c : CreateConfig Disk) :
    c.Prepare.2.Prepare.1 = c.Prepare.1 ∧ c.Prepare.2.Prepare.2 = c.Prepare.2 := by
  have hD : (prepareGuestOS c).DiskSize = c.DiskSize := by
    unfold prepareGuestOS; split <;> rfl
  have hS : (prepareGuestOS c).Storage = c.Storage := by
    unfold prepareGuestOS; split <;> rfl
  have hF : (prepareGuestOS c).Firmware = c.Firmware := by
    unfold prepareGuestOS; split <;> rfl
  constructor
  · rw [prepare_errs_eq, prepare_errs_eq]
    simp only [CreateConfig.Prepare, hD, hS, hF]
  · simp only [CreateConfig.Prepare, prepareGuestOS_idem]

/-- C20: `Prepare` changes at most `GuestOSType`: every other field of the
config it leaves equals the field of the config it was called on, and
`GuestOSType` itself is `otherGuest` when it was empty and unchanged when it
was not. -/
theorem prepare_changes_only_guest_os {Disk : Type} (c : CreateConfig Disk) :
    c.Prepare.2.Version = c.Version ∧ c.Prepare.2.Firmware = c.Firmware ∧
    c.Prepare.2.DiskControllerType = c.DiskControllerType ∧
    c.Prepare.2.DiskSize = c.DiskSize ∧
    c.Prepare.2.DiskThinProvisioned = c.DiskThinProvisioned ∧
    c.Prepare.2.Network = c.Network ∧ c.Prepare.2.NetworkCard = c.NetworkCard ∧
    c.Prepare.2.USBController = c.USBController ∧ c.Prepare.2.Notes = c.Notes ∧
    c.Prepare.2.GlobalDiskType = c.GlobalDiskType ∧ c.Prepare.2.Networks = c.Networks ∧
    c.Prepare.2.Storage = c.Storage ∧
    c.Prepare.2.GuestOSType = (if c.GuestOSType = "" then "otherGuest" else c.GuestOSType) := by
  simp only [CreateConfig.Prepare, prepareGuestOS]
  by_cases h : c.GuestOSType = "" <;> simp [h]

/-! ## The rollback `Cleanup` -/

theorem get_of_absent (b : StateBag) (k : String) (h : (b.GetOk k).2 = false) :
    b.Get k = Value.nil := by
  unfold StateBag.Get
  unfold StateBag.GetOk at h ⊢
  cases hl : List.lookup k b <;> simp_all

theorem cleanup_of_marked {W Disk : Type} (s : StepCreateVM Disk) (d : driver.Driver W Disk)
    (m : Machine W Disk) (v : driver.VirtualMachine)
    (hui : m.bag.Get "ui" = Value.ui)
    (hmark : (m.bag.GetOk StateCancelled).2 = true ∨ (m.bag.GetOk StateHalted).2 = true)
    (hvm : m.bag.Get "vm" = Value.vm v) :
    s.Cleanup d m = some (match ((m.Say "Destroying VM...").Destroy d v).1 with
      | some e => ((m.Say "Destroying VM...").Destroy d v).2.Error e.msg
      | none => ((m.Say "Destroying VM...").Destroy d v).2) := by
  have hm : (!(m.bag.GetOk StateCancelled).2 && !(m.bag.GetOk StateHalted).2) = false := by
    rcases hmark with h | h <;> simp [h]
  unfold StepCreateVM.Cleanup
  simp only [hm, hui, hvm, asUi, asVirtualMachine]
  cases hd : ((m.Say "Destroying VM...").Destroy d v).1 <;> simp [hd]

/-- C13: when the cancelled marker or the halted marker is present and the
handle `v` is stored under `vm`, `Cleanup` says `Destroying VM...`, calls
`Destroy` on `v`, and reports the error of that call, if any, on the ui. It
calls `Destroy` once and makes no other driver call. -/
theorem cleanup_destroys_stored_handle {W Disk : Type} (s : StepCreateVM Disk)
    (d : driver.Driver W Disk) (m : Machine W Disk) (v : driver.VirtualMachine)
    (err : Option GoError) (w' : W) (hui : m.bag.Get "ui" = Value.ui)
    (hmark : (m.bag.GetOk StateCancelled).2 = true ∨ (m.bag.GetOk StateHalted).2 = true)
    (hvm : m.bag.Get "vm" = Value.vm v) (hdestroy : d.Destroy v m.world = (err, w')) :
    ∃ m', s.Cleanup d m = some m' ∧
      m'.since m = [Event.Say "Destroying VM...", Event.Destroy v] ++
        (match err with
          | some e => [Event.Error e.msg]
          | none => []) ∧
      destroyCalls (m'.since m) = 1 ∧ findCalls (m'.since m) = 0 ∧
      createCalls (m'.since m) = 0 ∧ m'.world = w' := by
  rw [cleanup_of_marked s d m v hui hmark hvm]
  refine ⟨_, rfl, ?_⟩
  cases err <;>
    simp [Machine.since, Machine.Say, Machine.Destroy, Machine.Error, hdestroy, destroyCalls,
      findCalls, createCalls]

/-- Witness of C13: the pipeline is cancelled after a run that stored handle
8, and the destruction succeeds (scenario E). -/
theorem cleanup_destroys_stored_handle_witness :
    cancelledMachine.bag.Get "ui" = Value.ui ∧
      (cancelledMachine.bag.GetOk StateCancelled).2 = true ∧
      cancelledMachine.bag.Get "vm" = Value.vm ⟨8⟩ ∧
      ∃ m', (web01 false).Cleanup (scriptedDriver (⟨0⟩, some ⟨"vm not found"⟩) none (⟨8⟩, none))
          cancelledMachine = some m' ∧
        m'.since cancelledMachine = [Event.Say "Destroying VM...", Event.Destroy ⟨8⟩] ++
          (match (none : Option GoError) with
            | some e => [Event.Error e.msg]
            | none => []) ∧
        destroyCalls (m'.since cancelledMachine) = 1 ∧
        findCalls (m'.since cancelledMachine) = 0 ∧
        createCalls (m'.since cancelledMachine) = 0 ∧ m'.world = 3 :=
  ⟨by decide, by decide, by decide,
    cleanup_destroys_stored_handle (web01 false)
      (scriptedDriver (⟨0⟩, some ⟨"vm not found"⟩) none (⟨8⟩, none)) cancelledMachine
      ⟨8⟩ none 3 (by decide) (Or.inl (by decide)) (by decide) rfl⟩

/-- C14: when neither the cancelled marker nor the halted marker is present,
`Cleanup` returns at line 111 with the state it was given: no driver call,
no message, no change, whatever is stored under `vm` and under `ui`. -/
theorem cleanup_noop_without_marker {W Disk : Type} (s : StepCreateVM Disk)
    (d : driver.Driver W Disk) (m : Machine W Disk)
    (hcancelled : (m.bag.GetOk StateCancelled).2 = false)
    (hhalted : (m.bag.GetOk StateHalted).2 = false) :
    s.Cleanup d m = some m ∧ m.since m = [] := by
  constructor
  · simp [StepCreateVM.Cleanup, hcancelled, hhalted]
  · simp [Machine.since]

/-- Witness of C14: the pipeline ended with handle 8 stored and no marker
(scenario F). -/
theorem cleanup_noop_without_marker_witness :
    (finishedMachine.bag.GetOk StateCancelled).2 = false ∧
      (finishedMachine.bag.GetOk StateHalted).2 = false ∧
      finishedMachine.bag.Get "vm" = Value.vm ⟨8⟩ ∧
      (web01 false).Cleanup (scriptedDriver (⟨0⟩, none) none (⟨8⟩, none)) finishedMachine =
        some finishedMachine ∧
      finishedMachine.since finishedMachine = [] :=
  ⟨by decide, by decide, by decide,
    cleanup_noop_without_marker (web01 false) (scriptedDriver (⟨0⟩, none) none (⟨8⟩, none))
      finishedMachine (by decide) (by decide)⟩

/-- C15: when nothing is stored under `vm`, `Cleanup` returns with the state
it was given, with or without the markers: it does not panic, calls no
`Destroy` and emits no message. The bag holds the ui, as in every pipeline
state. -/
theorem cleanup_safe_without_handle {W Disk : Type} (s : StepCreateVM Disk)
    (d : driver.Driver W Disk) (m : Machine W Disk) (hui : m.bag.Get "ui" = Value.ui)
    (hvm : (m.bag.GetOk "vm").2 = false) :
    s.Cleanup d m = some m ∧ destroyCalls (m.since m) = 0 ∧ messages (m.since m) = [] := by
  have hnil := get_of_absent m.bag "vm" hvm
  refine ⟨?_, ?_, ?_⟩
  · unfold StepCreateVM.Cleanup
    simp only [hui, hnil, asUi]
    split <;> simp
  · simp [Machine.since, destroyCalls]
  · simp [Machine.since, messages]

/-- Witness of C15: a halted pipeline whose `Run` stopped on the conflict
and stored no handle. -/
theorem cleanup_safe_without_handle_witness :
    haltedMachine.bag.Get "ui" = Value.ui ∧ (haltedMachine.bag.GetOk "vm").2 = false ∧
      (haltedMachine.bag.GetOk StateHalted).2 = true ∧
      (web01 false).Cleanup (scriptedDriver (⟨7⟩, none) none (⟨8⟩, none)) haltedMachine =
        some haltedMachine ∧
      destroyCalls (haltedMachine.since haltedMachine) = 0 ∧
      messages (haltedMachine.since haltedMachine) = [] :=
  ⟨by decide, by decide, by decide,
    cleanup_safe_without_handle (web01 false) (scriptedDriver (⟨7⟩, none) none (⟨8⟩, none))
      haltedMachine (by decide) (by decide)⟩

/-- C16: `Cleanup` never writes to the state bag: on every path the bag it
leaves is the bag it was given and its trace has no `Put`, to `error` or to
any key. When its `Destroy` call fails with the error `e`, the one thing it
does with `e` is one `ui.Error` carrying the message of `e`. The bag holds
the ui, and nothing but a handle is stored under `vm`. -/
theorem cleanup_reports_on_ui_only {W Disk : Type} (s : StepCreateVM Disk)
    (d : driver.Driver W Disk) (m : Machine W Disk) (hui : m.bag.Get "ui" = Value.ui)
    (hvm : m.bag.Get "vm" = Value.nil ∨ ∃ v, m.bag.Get "vm" = Value.vm v) :
    ∃ m', s.Cleanup d m = some m' ∧ m'.bag = m.bag ∧
      putCalls (m'.since m) = 0 ∧ putsTo "error" (m'.since m) = 0 ∧
      ∀ v e w',
        ((m.bag.GetOk StateCancelled).2 = true ∨ (m.bag.GetOk StateHalted).2 = true) →
        m.bag.Get "vm" = Value.vm v → d.Destroy v m.world = (some e, w') →
        m'.since m = [Event.Say "Destroying VM...", Event.Destroy v, Event.Error e.msg] ∧
        errorMessages (m'.since m) = [e.msg] := by
  by_cases hmark : (m.bag.GetOk StateCancelled).2 = true ∨ (m.bag.GetOk StateHalted).2 = true
  · rcases hvm with hnil | ⟨v, hv⟩
    · refine ⟨m, ?_, rfl, ?_, ?_, ?_⟩
      · have hm : (!(m.bag.GetOk StateCancelled).2 && !(m.bag.GetOk StateHalted).2) = false := by
          rcases hmark with h | h <;> simp [h]
        unfold StepCreateVM.Cleanup
        simp [hm, hui, hnil, asUi]
      · simp [Machine.since, putCalls]
      · simp [Machine.since, putsTo]
      · intro v e w' _ hv
        rw [hnil] at hv
        cases hv
    · rw [cleanup_of_marked s d m v hui hmark hv]
      refine ⟨_, rfl, ?_⟩
      rcases hd : d.Destroy v m.world with ⟨err, w1⟩
      cases err with
      | none =>
        refine ⟨?_, ?_, ?_, ?_⟩
        · simp [Machine.Say, Machine.Destroy, hd]
        · simp [Machine.since, Machine.Say, Machine.Destroy, hd, putCalls]
        · simp [Machine.since, Machine.Say, Machine.Destroy, hd, putsTo]
        · intro v' e w' _ hv' hd'
          rw [hv] at hv'
          cases hv'
          rw [hd] at hd'
          cases hd'
      | some e0 =>
        refine ⟨?_, ?_, ?_, ?_⟩
        · simp [Machine.Say, Machine.Destroy, Machine.Error, hd]
        · simp [Machine.since, Machine.Say, Machine.Destroy, Machine.Error, hd, putCalls]
        · simp [Machine.since, Machine.Say, Machine.Destroy, Machine.Error, hd, putsTo]
        · intro v' e w' _ hv' hd'
          rw [hv] at hv'
          cases hv'
          rw [hd] at hd'
          cases hd'
          simp [Machine.since, Machine.Say, Machine.Destroy, Machine.Error, hd,
            errorMessages]
  · have hc : (m.bag.GetOk StateCancelled).2 = false := by
      cases h : (m.bag.GetOk StateCancelled).2 <;> simp_all
    have hh : (m.bag.GetOk StateHalted).2 = false := by
      cases h : (m.bag.GetOk StateHalted).2 <;> simp_all
    refine ⟨m, ?_, rfl, ?_, ?_, ?_⟩
    · simp [StepCreateVM.Cleanup, hc, hh]
    · simp [Machine.since, putCalls]
    · simp [Machine.since, putsTo]
    · intro v e w' hm
      exact absurd hm hmark

/-- Witness of C16: the pipeline is cancelled with handle 8 stored, and the
destruction fails with `vm is busy`. -/
theorem cleanup_reports_on_ui_only_witness :
    cancelledMachine.bag.Get "ui" = Value.ui ∧
      ∃ m', (web01 false).Cleanup
          (scriptedDriver (⟨0⟩, none) (some ⟨"vm is busy"⟩) (⟨8⟩, none)) cancelledMachine =
            some m' ∧
        m'.bag = cancelledMachine.bag ∧ putCalls (m'.since cancelledMachine) = 0 ∧
        m'.since cancelledMachine =
          [Event.Say "Destroying VM...", Event.Destroy ⟨8⟩, Event.Error "vm is busy"] ∧
        errorMessages (m'.since cancelledMachine) = ["vm is busy"] :=
  ⟨by decide,
    match cleanup_reports_on_ui_only (web01 false)
      (scriptedDriver (⟨0⟩, none) (some ⟨"vm is busy"⟩) (⟨8⟩, none)) cancelledMachine
      (by decide) (Or.inr ⟨⟨8⟩, by decide⟩) with
    | ⟨m', h1, h2, h3, _, h5⟩ =>
      ⟨m', h1, h2, h3, h5 ⟨8⟩ ⟨"vm is busy"⟩ 3 (Or.inl (by decide)) (by decide) rfl⟩⟩

/-! ## The shape of every trace of `Run` -/

theorem resolve_shape {W Disk : Type} (s : StepCreateVM Disk) (d : driver.Driver W Disk)
    (m : Machine W Disk)
    (hreach : ¬ (s.Force = false ∧ (d.FindVM s.Location.VMName m.world).1.2 = none)) :
    ∃ pre, (s.resolve d m).2.trace = m.trace ++ pre ∧
      (pre = [Event.FindVM s.Location.VMName] ∨
        pre = [Event.FindVM s.Location.VMName, Event.Say (msgDeleting s.Location.VMName),
          Event.Destroy (d.FindVM s.Location.VMName m.world).1.1] ∨
        ∃ ev, pre = [Event.FindVM s.Location.VMName,
          Event.Say (msgDeleting s.Location.VMName),
          Event.Destroy (d.FindVM s.Location.VMName m.world).1.1,
          Event.Put "error" (Value.error ev)]) := by
  rcases hfind : d.FindVM s.Location.VMName m.world with ⟨⟨vm0, err0⟩, w1⟩
  rcases hdestroy : d.Destroy vm0 w1 with ⟨err1, w2⟩
  rw [hfind] at hreach
  cases hforce : s.Force <;> cases err0 <;> cases err1 <;>
    simp_all [StepCreateVM.resolve, Machine.FindVM, Machine.Destroy, Machine.Say, Machine.Put]

theorem run_shape {W Disk : Type} (s : StepCreateVM Disk) (d : driver.Driver W Disk)
    (m : Machine W Disk) (hready : m.ready) :
    ∃ a m', s.Run d m = some (a, m') ∧
      ((s.Force = false ∧ (d.FindVM s.Location.VMName m.world).1.2 = none ∧
          a = StepAction.ActionHalt ∧
          m'.since m = [Event.FindVM s.Location.VMName,
            Event.Put "error" (Value.error (Errorf (msgExists s.Location.VMName none)))] ∧
          m'.bag.Get "error" = Value.error (Errorf (msgExists s.Location.VMName none))) ∨
        (¬ (s.Force = false ∧ (d.FindVM s.Location.VMName m.world).1.2 = none) ∧
          ∃ pre fin,
            m'.since m = pre ++ [Event.Say "Creating VM...", Event.CreateVM s.request, fin] ∧
            (pre = [Event.FindVM s.Location.VMName] ∨
              pre = [Event.FindVM s.Location.VMName,
                Event.Say (msgDeleting s.Location.VMName),
                Event.Destroy (d.FindVM s.Location.VMName m.world).1.1] ∨
              ∃ ev, pre = [Event.FindVM s.Location.VMName,
                Event.Say (msgDeleting s.Location.VMName),
                Event.Destroy (d.FindVM s.Location.VMName m.world).1.1,
                Event.Put "error" (Value.error ev)]) ∧
            ((a = StepAction.ActionContinue ∧
                (d.CreateVM s.request (s.resolve d m).2.world).1.2 = none ∧
                ∃ v1, fin = Event.Put "vm" (Value.vm v1)) ∨
              (a = StepAction.ActionHalt ∧
                ∃ e, (d.CreateVM s.request (s.resolve d m).2.world).1.2 = some e ∧
                  fin = Event.Put "error" (Value.error (Errorf (msgCreating e))) ∧
                  m'.bag.Get "error" = Value.error (Errorf (msgCreating e)))))) := by
  rw [run_of_ready s d m hready]
  by_cases hconf : s.Force = false ∧ (d.FindVM s.Location.VMName m.world).1.2 = none
  · rw [resolve_conflict s d m hconf.1 hconf.2]
    refine ⟨_, _, rfl, Or.inl ⟨hconf.1, hconf.2, rfl, ?_, ?_⟩⟩
    · simp [Machine.since, Machine.Put, Machine.FindVM]
    · simp [Machine.Put, get_put_same]
  · have hnone : (s.resolve d m).1 = none := (resolve_falls_through_iff s d m).2 hconf
    have hres : s.resolve d m = (none, (s.resolve d m).2) := Prod.ext hnone rfl
    obtain ⟨pre, htrace, hpre⟩ := resolve_shape s d m hconf
    rw [hres]
    cases hc : (d.CreateVM s.request (s.resolve d m).2.world).1.2 with
    | none =>
      simp only [create_succeeded s d _ hc]
      refine ⟨_, _, rfl, Or.inr ⟨hconf, pre,
        Event.Put "vm" (Value.vm (d.CreateVM s.request (s.resolve d m).2.world).1.1), ?_, hpre,
        Or.inl ⟨rfl, trivial, _, rfl⟩⟩⟩
      simp [Machine.since, Machine.Put, Machine.CreateVM, Machine.Say, htrace]
    | some e =>
      simp only [create_failed s d _ e hc]
      refine ⟨_, _, rfl, Or.inr ⟨hconf, pre,
        Event.Put "error" (Value.error (Errorf (msgCreating e))), ?_, hpre,
        Or.inr ⟨rfl, e, rfl, rfl, ?_⟩⟩⟩
      · simp [Machine.since, Machine.Put, Machine.CreateVM, Machine.Say, htrace]
      · simp [Machine.Put, get_put_same]

theorem findCalls_append {Disk : Type} (xs ys : List (Event Disk)) :
    findCalls (xs ++ ys) = findCalls xs + findCalls ys := by
  induction xs with
  | nil => simp [findCalls]
  | cons x xs ih => cases x <;> simp [findCalls, ih]; omega

/-- C11: every `Run` calls `FindVM` exactly once, `Destroy` at most once and
`CreateVM` at most once, whatever `Force` is and whatever the driver
returns. The bag holds the ui and the driver, so that `Run` gets past lines
60-61. -/
theorem run_driver_calls_bounded {W Disk : Type} (s : StepCreateVM Disk)
    (d : driver.Driver W Disk) (m : Machine W Disk) (hready : m.ready) :
    ∃ a m', s.Run d m = some (a, m') ∧ findCalls (m'.since m) = 1 ∧
      destroyCalls (m'.since m) ≤ 1 ∧ createCalls (m'.since m) ≤ 1 := by
  obtain ⟨a, m', hrun, hshape⟩ := run_shape s d m hready
  refine ⟨a, m', hrun, ?_⟩
  rcases hshape with ⟨_, _, _, hsince, _⟩ | ⟨_, pre, fin, hsince, hpre, hfin⟩
  · rw [hsince]
    simp [findCalls, destroyCalls, createCalls]
  · rw [hsince]
    have hfin' : ∃ k v, fin = Event.Put k v := by
      rcases hfin with ⟨_, _, v1, h⟩ | ⟨_, e, _, h, _⟩
      · exact ⟨_, _, h⟩
      · exact ⟨_, _, h⟩
    obtain ⟨k, v, rfl⟩ := hfin'
    rcases hpre with rfl | rfl | ⟨ev, rfl⟩ <;>
      simp [findCalls, destroyCalls, createCalls]

/-- Witness of C11: `web01` exists as handle 7, `Force` is true, the
destruction fails and the creation fails: the longest path. -/
theorem run_driver_calls_bounded_witness :
    startMachine.ready ∧
      ∃ a m', (web01 true).Run
          (scriptedDriver (⟨7⟩, none) (some ⟨"vm is busy"⟩) (⟨0⟩, some ⟨"quota exceeded"⟩))
            startMachine = some (a, m') ∧
        findCalls (m'.since startMachine) = 1 ∧ destroyCalls (m'.since startMachine) ≤ 1 ∧
        createCalls (m'.since startMachine) ≤ 1 :=
  ⟨by decide,
    run_driver_calls_bounded (web01 true)
      (scriptedDriver (⟨7⟩, none) (some ⟨"vm is busy"⟩) (⟨0⟩, some ⟨"quota exceeded"⟩))
      startMachine (by decide)⟩

/-- C12: `Run` returns `ActionHalt` exactly when the VM exists and `Force` is
false, or `CreateVM` is called and returns an error; and whenever it returns
`ActionHalt`, its last effect is the write of an error under `error`, which
the bag then holds. -/
theorem run_halt_iff {W Disk : Type} (s : StepCreateVM Disk) (d : driver.Driver W Disk)
    (m : Machine W Disk) (hready : m.ready) :
    ∃ a m', s.Run d m = some (a, m') ∧
      (a = StepAction.ActionHalt →
        ∃ e, (m'.since m).getLast? = some (Event.Put "error" (Value.error e)) ∧
          1 ≤ putsTo "error" (m'.since m) ∧ m'.bag.Get "error" = Value.error e) ∧
      (a = StepAction.ActionHalt ↔
        (s.Force = false ∧ (d.FindVM s.Location.VMName m.world).1.2 = none) ∨
        (¬ (s.Force = false ∧ (d.FindVM s.Location.VMName m.world).1.2 = none) ∧
          (d.CreateVM s.request (s.resolve d m).2.world).1.2 ≠ none)) := by
  obtain ⟨a, m', hrun, hshape⟩ := run_shape s d m hready
  refine ⟨a, m', hrun, ?_⟩
  rcases hshape with ⟨hf, herr, ha, hsince, hbag⟩ | ⟨hreach, pre, fin, hsince, _, hfin⟩
  · refine ⟨fun _ => ⟨_, ?_, ?_, hbag⟩, ?_⟩
    · rw [hsince]; rfl
    · rw [hsince]; simp [putsTo]
    · simp [ha, hf, herr]
  · rcases hfin with ⟨ha, hc, _⟩ | ⟨ha, e, hc, hfin, hbag⟩
    · subst ha
      refine ⟨fun h => (by cases h), ?_⟩
      simp [hreach, hc]
    · subst ha
      refine ⟨fun _ => ⟨_, ?_, ?_, hbag⟩, ?_⟩
      · rw [hsince, hfin]; simp
      · rw [hsince, hfin]; simp [putsTo_append, putsTo]
      · simp [hreach, hc]

/-- Witness of C12: `web01` is not found and the creation fails with `quota
exceeded`. -/
theorem run_halt_iff_witness :
    startMachine.ready ∧
      ∃ a m', (web01 false).Run
          (scriptedDriver (⟨0⟩, some ⟨"vm not found"⟩) none (⟨0⟩, some ⟨"quota exceeded"⟩))
            startMachine = some (a, m') ∧
        a = StepAction.ActionHalt ∧
        ∃ e, (m'.since startMachine).getLast? = some (Event.Put "error" (Value.error e)) ∧
          1 ≤ putsTo "error" (m'.since startMachine) ∧ m'.bag.Get "error" = Value.error e :=
  ⟨by decide,
    match run_halt_iff (web01 false)
      (scriptedDriver (⟨0⟩, some ⟨"vm not found"⟩) none (⟨0⟩, some ⟨"quota exceeded"⟩))
      startMachine (by decide) with
    | ⟨a, m', h1, h2, h3⟩ =>
      have ha : a = StepAction.ActionHalt := h3.2 (Or.inr ⟨by decide, by decide⟩)
      ⟨a, m', h1, ha, h2 ha⟩⟩

/-- C17: whenever `Run` calls `CreateVM`, the request is the literal of
lines 77-97: the six placement fields come from `Location`, `GuestOS` from
`GuestOSType`, the annotation from `Notes`, and the other eleven fields from
the fields of `Config` with the same names; the name given to `FindVM` is
the `Name` of that request. -/
theorem run_request_flattens {W Disk : Type} (s : StepCreateVM Disk)
    (d : driver.Driver W Disk) (m : Machine W Disk) (hready : m.ready) :
    ∃ a m', s.Run d m = some (a, m') ∧
      (∀ req, Event.CreateVM req ∈ m'.since m → req = s.request) ∧
      (∀ name, Event.FindVM name ∈ m'.since m → name = s.request.Name) ∧
      s.request.Name = s.Location.VMName ∧ s.request.Folder = s.Location.Folder ∧
      s.request.Cluster = s.Location.Cluster ∧ s.request.Host = s.Location.Host ∧
      s.request.ResourcePool = s.Location.ResourcePool ∧
      s.request.Datastore = s.Location.Datastore ∧
      s.request.GuestOS = s.Config.GuestOSType ∧ s.request.Annotation = s.Config.Notes ∧
      s.request.DiskThinProvisioned = s.Config.DiskThinProvisioned ∧
      s.request.DiskControllerType = s.Config.DiskControllerType ∧
      s.request.DiskSize = s.Config.DiskSize ∧ s.request.Network = s.Config.Network ∧
      s.request.NetworkCard = s.Config.NetworkCard ∧
      s.request.USBController = s.Config.USBController ∧
      s.request.Version = s.Config.Version ∧ s.request.Firmware = s.Config.Firmware ∧
      s.request.GlobalDiskType = s.Config.GlobalDiskType ∧
      s.request.Networks = s.Config.Networks ∧ s.request.Storage = s.Config.Storage := by
  obtain ⟨a, m', hrun, hshape⟩ := run_shape s d m hready
  refine ⟨a, m', hrun, ?_, ?_, rfl, rfl, rfl, rfl, rfl, rfl, rfl, rfl, rfl, rfl, rfl, rfl, rfl,
    rfl, rfl, rfl, rfl, rfl, rfl⟩
  · intro req hmem
    rcases hshape with ⟨_, _, _, hsince, _⟩ | ⟨_, pre, fin, hsince, hpre, hfin⟩
    · rw [hsince] at hmem
      simp at hmem
    · have hfin' : ∃ k v, fin = Event.Put k v := by
        rcases hfin with ⟨_, _, v1, h⟩ | ⟨_, e, _, h, _⟩
        · exact ⟨_, _, h⟩
        · exact ⟨_, _, h⟩
      obtain ⟨k, v, rfl⟩ := hfin'
      rw [hsince] at hmem
      rcases hpre with rfl | rfl | ⟨ev, rfl⟩ <;> simpa using hmem
  · intro name hmem
    rcases hshape with ⟨_, _, _, hsince, _⟩ | ⟨_, pre, fin, hsince, hpre, hfin⟩
    · rw [hsince] at hmem
      simpa [StepCreateVM.request] using hmem
    · have hfin' : ∃ k v, fin = Event.Put k v := by
        rcases hfin with ⟨_, _, v1, h⟩ | ⟨_, e, _, h, _⟩
        · exact ⟨_, _, h⟩
        · exact ⟨_, _, h⟩
      obtain ⟨k, v, rfl⟩ := hfin'
      rw [hsince] at hmem
      rcases hpre with rfl | rfl | ⟨ev, rfl⟩ <;> simpa [StepCreateVM.request] using hmem

/-- Witness of C17: the replacement of `web01` with `Force` (scenario C). -/
theorem run_request_flattens_witness :
    startMachine.ready ∧
      ∃ a m', (web01 true).Run (scriptedDriver (⟨7⟩, none) none (⟨8⟩, none)) startMachine =
          some (a, m') ∧
        (∀ req, Event.CreateVM req ∈ m'.since startMachine → req = (web01 true).request) ∧
        (∀ name, Event.FindVM name ∈ m'.since startMachine → name = "web01") ∧
        (web01 true).request.Name = "web01" ∧ (web01 true).request.DiskSize = 40960 :=
  ⟨by decide,
    match run_request_flattens (web01 true) (scriptedDriver (⟨7⟩, none) none (⟨8⟩, none))
      startMachine (by decide) with
    | ⟨a, m', h1, h2, h3, _⟩ => ⟨a, m', h1, h2, h3, rfl, rfl⟩⟩

theorem split_at_call {α : Type} (p : α → Prop) (A B : List α) (y x : α)
    (hA : ∀ a ∈ A, ¬ p a) (hy : ¬ p y) (hB : ∀ b ∈ B, ¬ p b) (pre post : List α) (z : α)
    (h : A ++ y :: x :: B = pre ++ z :: post) (hz : p z) : pre = A ++ [y] := by
  induction A generalizing pre with
  | nil =>
    cases pre with
    | nil =>
      simp only [List.nil_append, List.cons.injEq] at h
      exact absurd (h.1 ▸ hz) hy
    | cons q pre =>
      cases pre with
      | nil =>
        simp only [List.nil_append, List.cons_append, List.cons.injEq] at h
        simp [h.1]
      | cons r pre =>
        simp only [List.nil_append, List.cons_append, List.cons.injEq] at h
        have hmem : z ∈ B := by rw [h.2.2]; simp
        exact absurd hz (hB z hmem)
  | cons a A ih =>
    cases pre with
    | nil =>
      simp only [List.nil_append, List.cons_append, List.cons.injEq] at h
      exact absurd (h.1 ▸ hz) (hA a (by simp))
    | cons q pre =>
      simp only [List.cons_append, List.cons.injEq] at h
      have := ih (fun b hb => hA b (by simp [hb])) pre h.2
      simp [this, h.1]

/-- C18: in every trace of `Run`, the event right before a `CreateVM` call
is the message `Creating VM...`, the event right before a `Destroy` call is
the message that announces the deletion due to the `-force` flag, and on the
path that halts on a conflict without `Force` there is no message. -/
theorem run_announces_remote_calls {W Disk : Type} (s : StepCreateVM Disk)
    (d : driver.Driver W Disk) (m : Machine W Disk) (hready : m.ready) :
    ∃ a m', s.Run d m = some (a, m') ∧
      (∀ pre post req, m'.since m = pre ++ Event.CreateVM req :: post →
        pre.getLast? = some (Event.Say "Creating VM...")) ∧
      (∀ pre post v, m'.since m = pre ++ Event.Destroy v :: post →
        pre.getLast? = some (Event.Say (msgDeleting s.Location.VMName))) ∧
      (s.Force = false ∧ (d.FindVM s.Location.VMName m.world).1.2 = none →
        messages (m'.since m) = []) := by
  obtain ⟨a, m', hrun, hshape⟩ := run_shape s d m hready
  refine ⟨a, m', hrun, ?_⟩
  rcases hshape with ⟨_, _, _, hsince, _⟩ | ⟨hreach, pre0, fin, hsince, hpre, hfin⟩
  · rw [hsince]
    refine ⟨?_, ?_, fun _ => by simp [messages]⟩
    · intro pre post req h
      have hmem : Event.CreateVM req ∈
          [Event.FindVM s.Location.VMName,
            Event.Put "error" (Value.error (Errorf (msgExists s.Location.VMName none)))] := by
        rw [h]; simp
      simp at hmem
    · intro pre post v h
      have hmem : (Event.Destroy v : Event Disk) ∈
          [Event.FindVM s.Location.VMName,
            Event.Put "error" (Value.error (Errorf (msgExists s.Location.VMName none)))] := by
        rw [h]; simp
      simp at hmem
  · have hfin' : ∃ k v, fin = Event.Put k v := by
      rcases hfin with ⟨_, _, v1, h⟩ | ⟨_, e, _, h, _⟩
      · exact ⟨_, _, h⟩
      · exact ⟨_, _, h⟩
    obtain ⟨k, val, rfl⟩ := hfin'
    rw [hsince]
    refine ⟨?_, ?_, fun h => absurd h hreach⟩
    · intro pre post req h
      have hpre0 : ∀ e ∈ pre0, ¬ ∃ r, e = Event.CreateVM r := by
        rcases hpre with rfl | rfl | ⟨ev, rfl⟩ <;> simp
      have := split_at_call (fun e : Event Disk => ∃ r, e = Event.CreateVM r) pre0 [Event.Put k val]
        (Event.Say "Creating VM...") (Event.CreateVM s.request) hpre0 (by simp) (by simp)
        pre post (Event.CreateVM req) (by simpa using h) ⟨req, rfl⟩
      simp [this]
    · intro pre post v h
      rcases hpre with rfl | rfl | ⟨ev, rfl⟩
      · have hmem : Event.Destroy v ∈
            [Event.FindVM s.Location.VMName] ++
              [Event.Say "Creating VM...", Event.CreateVM s.request, Event.Put k val] := by
          rw [h]; simp
        simp at hmem
      · have := split_at_call (fun e : Event Disk => ∃ r, e = Event.Destroy r)
          [Event.FindVM s.Location.VMName]
          [Event.Say "Creating VM...", Event.CreateVM s.request, Event.Put k val]
          (Event.Say (msgDeleting s.Location.VMName))
          (Event.Destroy (d.FindVM s.Location.VMName m.world).1.1) (by simp) (by simp)
          (by simp) pre post (Event.Destroy v) (by simpa using h) ⟨v, rfl⟩
        simp [this]
      · have := split_at_call (fun e : Event Disk => ∃ r, e = Event.Destroy r)
          [Event.FindVM s.Location.VMName]
          [Event.Put "error" (Value.error ev), Event.Say "Creating VM...",
            Event.CreateVM s.request, Event.Put k val]
          (Event.Say (msgDeleting s.Location.VMName))
          (Event.Destroy (d.FindVM s.Location.VMName m.world).1.1) (by simp) (by simp)
          (by simp) pre post (Event.Destroy v) (by simpa using h) ⟨v, rfl⟩
        simp [this]

/-- Witness of C18: the replacement of `web01` with `Force`, where both
remote calls are made (scenario C). -/
theorem run_announces_remote_calls_witness :
    startMachine.ready ∧
      ∃ a m', (web01 true).Run (scriptedDriver (⟨7⟩, none) none (⟨8⟩, none)) startMachine =
          some (a, m') ∧
        (∀ pre post req, m'.since startMachine = pre ++ Event.CreateVM req :: post →
          pre.getLast? = some (Event.Say "Creating VM...")) ∧
        (∀ pre post v, m'.since startMachine = pre ++ Event.Destroy v :: post →
          pre.getLast? = some (Event.Say
            "the vm/template web01 already exists, but deleting it due to -force flag")) :=
  ⟨by decide,
    match run_announces_remote_calls (web01 true)
      (scriptedDriver (⟨7⟩, none) none (⟨8⟩, none)) startMachine (by decide) with
    | ⟨a, m', h1, h2, h3, _⟩ => ⟨a, m', h1, h2, h3⟩⟩
